import Mathlib

/-!
Shallow embedding of the Pomodoro visual tab timer (src/src/App.jsx).

Timestamps are modelled in whole milliseconds as naturals.  For naturals,
JS Math.max(0, a - b) is truncated subtraction, and Math.ceil(x / 1000)
is (x + 999) / 1000.  The null deadline (timerEndRef.current = null) is
Option.none; JS coerces null to 0 in the expression
timerEndRef.current - now, which Option.getD 0 mirrors.
-/

namespace VisualTabTimer

/-- totalTime constant: 25 minutes in seconds (App.jsx line 22). -/
def totalTime : Nat := 25 * 60

/-- Component state and refs that the countdown engine reads and writes:
isActive, timeRemaining in seconds, and timerEndRef, the absolute
millisecond deadline or null (App.jsx lines 20-27). -/
structure TimerState where
  isActive : Bool
  timeRemaining : Nat
  timerEnd : Option Nat
deriving DecidableEq

/-- Mount state: isActive = false, timeRemaining = 25*60, timerEndRef = null. -/
def initialState : TimerState := ⟨false, totalTime, none⟩

/-- updateTimer, the tick callback shared by the RAF loop, the interval and
the visibility handler (App.jsx lines 201-224):
remaining = max(0, timerEndRef.current - now);
newRemainingSeconds = ceil(remaining / 1000); the value is stored only when
it changed (a re-render optimisation, the resulting state is the same); when
newRemainingSeconds reaches 0 the timer auto-stops: isActive = false and
timerEndRef = null, and both periodic mechanisms are cancelled. -/
def updateTimer (now : Nat) (s : TimerState) : TimerState :=
  let remaining : Nat := s.timerEnd.getD 0 - now
  let newRemainingSeconds : Nat := (remaining + 999) / 1000
  let s' : TimerState :=
    if newRemainingSeconds ≠ s.timeRemaining then
      { s with timeRemaining := newRemainingSeconds }
    else s
  if newRemainingSeconds = 0 then { s' with isActive := false, timerEnd := none }
  else s'

/-- startTimer (App.jsx lines 270-274): unconditionally recomputes
timerEndRef.current = Date.now() + timeRemaining * 1000 and sets
isActive = true.  There is no guard for an already-running timer nor for
timeRemaining = 0. -/
def startTimer (now : Nat) (s : TimerState) : TimerState :=
  { s with timerEnd := some (now + s.timeRemaining * 1000), isActive := true }

/-- pauseTimer (App.jsx lines 276-279): only setIsActive(false) is executed.
The comment in the source says the end time is cleared, but timerEndRef is
left untouched by the code. -/
def pauseTimer (s : TimerState) : TimerState :=
  { s with isActive := false }

/-- resetTimer (App.jsx lines 281-286): isActive = false,
timeRemaining = 25*60, timerEndRef = null. -/
def resetTimer (_s : TimerState) : TimerState :=
  ⟨false, totalTime, none⟩

/-- Guard of the countdown effect (App.jsx line 194): after every commit the
effect first cancels any previously armed RAF and interval and re-arms both
iff isActive and timeRemaining > 0; so this boolean says whether the two
periodic mechanisms are armed for the current state. -/
def countdownArms (s : TimerState) : Bool :=
  s.isActive && decide (0 < s.timeRemaining)

/-- Folds a sequence of tick invocations, each carrying the wall-clock time
at which updateTimer fires. -/
def applyTicks (ts : List Nat) (s : TimerState) : TimerState :=
  ts.foldl (fun s t => updateTimer t s) s

/-- String.padStart(2, the zero digit) from formatTime (App.jsx line 297). -/
def padStart2 (str : String) : String :=
  if str.length < 2 then String.mk (List.replicate (2 - str.length) '0') ++ str
  else str

/-- formatTime (App.jsx lines 294-298): zero-padded floor(seconds/60) and
seconds mod 60, joined by a colon. -/
def formatTime (seconds : Nat) : String :=
  padStart2 (toString (seconds / 60)) ++ ":" ++ padStart2 (toString (seconds % 60))

/-- Title effect (App.jsx lines 39-54): fixed label in the pristine state,
otherwise a paused or running title derived from formatTime. -/
def docTitle (s : TimerState) : String :=
  if s.isActive = false ∧ s.timeRemaining = 25 * 60 then "Pomodoro Timer"
  else if s.isActive = false then formatTime s.timeRemaining ++ " - Paused"
  else formatTime s.timeRemaining ++ " - Pomodoro"

/-- getProgressClipPath (App.jsx lines 307-317): the seven polygon vertices
of the clip path, in percent coordinates, exactly as interpolated in the
source template string.  The thresholds 0.125, 0.375, 0.625, 0.875 are
written 1/8, 3/8, 5/8, 7/8.  The scalar type and the tangent and pi of the
host platform are parameters so that the definition stays computable; the
theorems instantiate them with the real numbers, Real.tan and Real.pi. -/
def getProgressClipPath {α : Type} [LinearOrderedField α]
    (tan : α → α) (pi : α) (progress : α) : List (α × α) :=
  [ (50, 50),
    (50, 0),
    (if progress > 1/8 then (100, 0)
     else (50 + 50 * tan (progress * 2 * pi), 0)),
    (if progress > 3/8 then (100, 100)
     else if progress > 1/8 then (100, 50 - 50 * tan ((progress - 1/4) * 2 * pi))
     else (50, 50)),
    (if progress > 5/8 then (0, 100)
     else if progress > 3/8 then (50 - 50 * tan ((progress - 1/2) * 2 * pi), 100)
     else (50, 50)),
    (if progress > 7/8 then (0, 0)
     else if progress > 5/8 then (0, 50 + 50 * tan ((progress - 3/4) * 2 * pi))
     else (50, 50)),
    (if progress > 7/8 then (50 - 50 * tan ((progress - 1) * 2 * pi), 0)
     else (50, 50)) ]

/-- Summands of the shoelace formula for a closed polygon: cross products of
consecutive vertices, wrapping from the last vertex back to the first.  The
signed polygon area is half of shoelaceSum; a polygon with shoelaceSum 0 has
zero area. -/
def shoelaceTerms {α : Type} [LinearOrderedField α]
    (first : α × α) : List (α × α) → α
  | [] => 0
  | [p] => p.1 * first.2 - first.1 * p.2
  | p :: q :: rest => (p.1 * q.2 - q.1 * p.2) + shoelaceTerms first (q :: rest)

/-- Twice the signed area of the polygon with the given vertex list. -/
def shoelaceSum {α : Type} [LinearOrderedField α] : List (α × α) → α
  | [] => 0
  | p :: rest => shoelaceTerms p (p :: rest)

/-- A favicon link element of the document head: rel attribute, href data
URL and optional sizes attribute. -/
structure LinkEl where
  rel : String
  href : String
  sizes : Option String
deriving DecidableEq

/-- Checks that the pattern occurs at the start of the character list. -/
def startsWithChars : List Char → List Char → Bool
  | [], _ => true
  | _ :: _, [] => false
  | p :: ps, c :: cs => (p == c) && startsWithChars ps cs

/-- Checks that the pattern occurs contiguously anywhere in the list. -/
def occursIn (pat : List Char) : List Char → Bool
  | [] => startsWithChars pat []
  | c :: cs => startsWithChars pat (c :: cs) || occursIn pat cs

/-- The CSS selector used for removal (App.jsx line 126) matches link
elements whose rel attribute contains the substring icon. -/
def matchesIconSelector (l : LinkEl) : Bool :=
  occursIn "icon".toList l.rel.toList

/-- updateFaviconInBrowser (App.jsx lines 118-155) as a transformation of
the document head: every link whose rel contains icon is removed, then the
32x32 icon, the 16x16 icon and the legacy shortcut icon mirroring the 32x32
data URL are appended.  The two generated data URLs are parameters. -/
def updateFaviconInBrowser (favicon32 favicon16 : String)
    (head : List LinkEl) : List LinkEl :=
  (head.filter fun l => !(matchesIconSelector l)) ++
    [⟨"icon", favicon32, some "32x32"⟩,
     ⟨"icon", favicon16, some "16x16"⟩,
     ⟨"shortcut icon", favicon32, none⟩]

/-- States reachable from the mount state by any sequence of user commands
and tick callbacks, each fired at a wall-clock time no earlier than the
previous one (the clock never moves backward).  The time index is the
wall-clock instant of the last operation. -/
inductive Reachable : Nat → TimerState → Prop where
  | init (t : Nat) : Reachable t initialState
  | start {t : Nat} {s : TimerState} (t' : Nat) :
      Reachable t s → t ≤ t' → Reachable t' (startTimer t' s)
  | pause {t : Nat} {s : TimerState} (t' : Nat) :
      Reachable t s → t ≤ t' → Reachable t' (pauseTimer s)
  | reset {t : Nat} {s : TimerState} (t' : Nat) :
      Reachable t s → t ≤ t' → Reachable t' (resetTimer s)
  | tick {t : Nat} {s : TimerState} (t' : Nat) :
      Reachable t s → t ≤ t' → Reachable t' (updateTimer t' s)

end VisualTabTimer

namespace VisualTabTimer

theorem updateTimer_eq (now : Nat) (s : TimerState) :
    updateTimer now s =
      if (s.timerEnd.getD 0 - now + 999) / 1000 = 0 then ⟨false, 0, none⟩
      else ⟨s.isActive, (s.timerEnd.getD 0 - now + 999) / 1000, s.timerEnd⟩ := by
  rcases s with ⟨a, r, eo⟩
  by_cases hne : ((eo.getD 0 - now + 999) / 1000) ≠ r <;>
    by_cases h0 : ((eo.getD 0 - now + 999) / 1000) = 0 <;>
      simp_all [updateTimer]

theorem updateTimer_timeRemaining (now : Nat) (s : TimerState) :
    (updateTimer now s).timeRemaining = (s.timerEnd.getD 0 - now + 999) / 1000 := by
  rw [updateTimer_eq]
  split <;> simp_all

theorem zero_fixpoint (now : Nat) :
    updateTimer now (⟨false, 0, none⟩ : TimerState) = ⟨false, 0, none⟩ := by
  rw [updateTimer_eq]
  simp

theorem startTimer_eq (now : Nat) (s : TimerState) :
    startTimer now s = ⟨true, s.timeRemaining, some (now + s.timeRemaining * 1000)⟩ := by
  rcases s with ⟨a, r, eo⟩
  rfl

theorem applyTicks_append (ts us : List Nat) (s : TimerState) :
    applyTicks (ts ++ us) s = applyTicks us (applyTicks ts s) := by
  simp [applyTicks, List.foldl_append]

theorem applyTicks_singleton (t : Nat) (s : TimerState) :
    applyTicks [t] s = updateTimer t s := rfl

/-- During a run segment with deadline e, folding tick invocations whose
times stay at or below T keeps the state either live with the same deadline
or stopped at zero, the latter only once the deadline fits below T. -/
theorem applyTicks_run (e T : Nat) (ts : List Nat) :
    ∀ u : TimerState, (∀ t ∈ ts, t ≤ T) →
      ((∃ r, u = ⟨true, r, some e⟩) ∨ (u = ⟨false, 0, none⟩ ∧ e ≤ T)) →
      ((∃ r, applyTicks ts u = ⟨true, r, some e⟩) ∨
        (applyTicks ts u = ⟨false, 0, none⟩ ∧ e ≤ T)) := by
  induction ts with
  | nil => intro u _ hu; exact hu
  | cons t ts ih =>
    intro u hts hu
    have htT : t ≤ T := hts t (List.mem_cons_self t ts)
    have hstep : (∃ r, updateTimer t u = ⟨true, r, some e⟩) ∨
        (updateTimer t u = ⟨false, 0, none⟩ ∧ e ≤ T) := by
      rcases hu with ⟨r, rfl⟩ | ⟨rfl, he⟩
      · rw [updateTimer_eq]
        simp only [Option.getD_some]
        by_cases h0 : (e - t + 999) / 1000 = 0
        · refine Or.inr ⟨by simp [h0], by omega⟩
        · exact Or.inl ⟨(e - t + 999) / 1000, by simp [h0]⟩
      · exact Or.inr ⟨zero_fixpoint t, he⟩
    have : applyTicks (t :: ts) u = applyTicks ts (updateTimer t u) := rfl
    rw [this]
    exact ih (updateTimer t u) (fun t' ht' => hts t' (List.mem_cons_of_mem t ht')) hstep

theorem updateTimer_stop (now e : Nat) (u : TimerState)
    (hu : u.timerEnd = some e) (he : e ≤ now) :
    updateTimer now u = ⟨false, 0, none⟩ := by
  rw [updateTimer_eq, hu]
  simp only [Option.getD_some]
  rw [if_pos (by omega)]

/-- C1: for every run segment started at wall-clock t0 with
remainingSeconds = r0, after N seconds of continuous running, closed by a
tick at t0 + N seconds, the engine's remainingSeconds equals
max(0, r0 - N) (truncated subtraction on naturals), no matter how many
redundant tick invocations fired in between and at which times within the
segment: tick always recomputes the value from the stored deadline, so
redundant calls within the same second never double-decrement. -/
theorem remaining_after_run (t0 r0 N : Nat) (s : TimerState) (ts : List Nat)
    (hs : s.timeRemaining = r0)
    (hts : ∀ t ∈ ts, t0 ≤ t ∧ t ≤ t0 + N * 1000) :
    (applyTicks (ts ++ [t0 + N * 1000]) (startTimer t0 s)).timeRemaining
      = r0 - N := by
  rw [applyTicks_append]
  have hrun := applyTicks_run (t0 + r0 * 1000) (t0 + N * 1000) ts (startTimer t0 s)
    (fun t ht => (hts t ht).2)
    (Or.inl ⟨r0, by rw [startTimer_eq, hs]⟩)
  rcases hrun with ⟨r, heq⟩ | ⟨heq, he⟩
  · rw [heq, applyTicks_singleton, updateTimer_timeRemaining]
    simp only [Option.getD_some]
    omega
  · rw [heq, applyTicks_singleton, zero_fixpoint]
    simp only
    omega

/-- C1 witness: a concrete run with redundant ticks inside the same second:
r0 = 2, three redundant ticks at 100ms, 400ms and again 400ms, closing tick
at 1 second, leaving 1 second remaining. -/
theorem remaining_after_run_witness :
    (applyTicks ([100, 400, 400] ++ [0 + 1 * 1000])
      (startTimer 0 ⟨false, 2, none⟩)).timeRemaining = 2 - 1 :=
  remaining_after_run 0 2 1 ⟨false, 2, none⟩ [100, 400, 400] rfl (by decide)

/-- C2 counterexample: startTimer is not a no-op when remainingSeconds = 0
(it still sets isActive = true and a deadline), and not a no-op when the
timer is already running (it rebases the stored deadline). -/
theorem start_noop_counterexample :
    startTimer 5000 ⟨false, 0, none⟩ ≠ ⟨false, 0, none⟩ ∧
    startTimer 1000 ⟨true, 5, some 3000⟩ ≠ ⟨true, 5, some 3000⟩ := by
  decide

/-- C2 amended: startTimer unconditionally sets
Deadline = now + remainingSeconds * 1000 and isRunning = true, keeping
remainingSeconds; this also happens when the timer is already running and
when remainingSeconds = 0. -/
theorem start_unconditional (now : Nat) (s : TimerState) :
    startTimer now s = ⟨true, s.timeRemaining, some (now + s.timeRemaining * 1000)⟩ :=
  startTimer_eq now s

/-- C3: evaluation of the code at the failing input: starting the pristine
timer at t = 0 and pausing immediately leaves isActive = false with the
deadline still stored (some 1500000); pause does not clear timerEndRef,
so the invariant that a non-running timer has no deadline fails, even
though remainingSeconds is retained as specified. -/
theorem pause_leaves_deadline_set :
    pauseTimer (startTimer 0 initialState)
      = ⟨false, totalTime, some 1500000⟩ := by
  decide

/-- C6: starting the pristine 1500-second timer at any t0 and driving it
with one tick per second, the 1500th tick, the first to compute
remainingSeconds = 0, leaves the terminal state: isActive = false,
timerEndRef cleared; the countdown effect then cancels both periodic
mechanisms and arms none, and any further tick invocation leaves the
stopped state unchanged. -/
theorem run_to_zero_terminal (t0 : Nat) :
    applyTicks ((List.range 1500).map fun i => t0 + (i + 1) * 1000)
        (startTimer t0 initialState) = ⟨false, 0, none⟩ ∧
    countdownArms (applyTicks ((List.range 1500).map fun i => t0 + (i + 1) * 1000)
        (startTimer t0 initialState)) = false ∧
    ∀ now, updateTimer now (⟨false, 0, none⟩ : TimerState) = ⟨false, 0, none⟩ := by
  have hsplit : ((List.range 1500).map fun i => t0 + (i + 1) * 1000)
      = ((List.range 1499).map fun i => t0 + (i + 1) * 1000) ++ [t0 + 1500 * 1000] := by
    rw [show (1500 : Nat) = 1499 + 1 from rfl, List.range_succ, List.map_append]
    norm_num
  have hfinal : applyTicks ((List.range 1500).map fun i => t0 + (i + 1) * 1000)
      (startTimer t0 initialState) = ⟨false, 0, none⟩ := by
    rw [hsplit, applyTicks_append]
    have hrun := applyTicks_run (t0 + 1500 * 1000) (t0 + 1500 * 1000)
      ((List.range 1499).map fun i => t0 + (i + 1) * 1000)
      (startTimer t0 initialState)
      (by
        intro t ht
        simp only [List.mem_map, List.mem_range] at ht
        obtain ⟨i, hi, rfl⟩ := ht
        omega)
      (Or.inl ⟨totalTime, by rw [startTimer_eq]; rfl⟩)
    rcases hrun with ⟨r, heq⟩ | ⟨heq, _⟩
    · rw [heq, applyTicks_singleton]
      exact updateTimer_stop _ _ _ rfl (Nat.le_refl _)
    · rw [heq, applyTicks_singleton, zero_fixpoint]
  exact ⟨hfinal, by rw [hfinal]; rfl, zero_fixpoint⟩

/-- C8: pausing a running state and immediately restarting it preserves the
remaining seconds: the first tick after the restart, firing within the same
second (d < 1000 milliseconds after the restart), observes exactly the
value held just before the pause. -/
theorem pause_start_roundtrip (s : TimerState) (tp d : Nat)
    (_hrun : s.isActive = true) (hd : d < 1000) :
    (updateTimer (tp + d) (startTimer tp (pauseTimer s))).timeRemaining
      = s.timeRemaining := by
  have hpause : (pauseTimer s).timeRemaining = s.timeRemaining := rfl
  rw [updateTimer_timeRemaining, startTimer_eq, hpause]
  simp only [Option.getD_some]
  omega

/-- C8 witness: a run paused at 1490 seconds and restarted at t = 2000,
with the first tick 500ms later, still reads 1490. -/
theorem pause_start_roundtrip_witness :
    (updateTimer (2000 + 500)
      (startTimer 2000 (pauseTimer ⟨true, 1490, some 1492000⟩))).timeRemaining
      = 1490 :=
  pause_start_roundtrip ⟨true, 1490, some 1492000⟩ 2000 500 rfl (by decide)

/-- C7: docTitle is determined by the state: the fixed label in the
pristine state, a Paused title with the zero-padded mm:ss rendering of
remainingSeconds when not running, a Pomodoro title when running; and the
concrete scenario: starting the pristine timer at t = 0, ticking once per
second for 10 seconds and pausing leaves the title at 24:50 - Paused. -/
theorem title_of_state (s : TimerState) :
    (s.isActive = false → s.timeRemaining = totalTime →
      docTitle s = "Pomodoro Timer") ∧
    (s.isActive = false → s.timeRemaining ≠ totalTime →
      docTitle s = formatTime s.timeRemaining ++ " - Paused") ∧
    (s.isActive = true →
      docTitle s = formatTime s.timeRemaining ++ " - Pomodoro") ∧
    formatTime 1490 = "24:50" ∧
    docTitle (pauseTimer (applyTicks ((List.range 10).map fun i => (i + 1) * 1000)
      (startTimer 0 initialState))) = "24:50 - Paused" := by
  refine ⟨?_, ?_, ?_, by decide, by decide⟩
  · intro ha hr
    simp [docTitle, ha, hr, totalTime]
  · intro ha hr
    have hr' : s.timeRemaining ≠ 25 * 60 := hr
    simp [docTitle, ha, hr']
  · intro ha
    simp [docTitle, ha]

/-- C7 witness: a paused state at 1490 seconds renders the paused title. -/
theorem title_of_state_witness :
    docTitle ⟨false, 1490, none⟩ = formatTime 1490 ++ " - Paused" :=
  (title_of_state ⟨false, 1490, none⟩).2.1 rfl (by decide)

theorem filter_not_self {β : Type} (p : β → Bool) (l : List β) :
    (l.filter fun a => !(p a)).filter p = [] := by
  induction l with
  | nil => rfl
  | cons a l ih => cases hpa : p a <;> simp [List.filter_cons, hpa, ih]

/-- C9: every icon-install attempt, applied to an arbitrary current head,
leaves exactly the three fresh icon links in the head, in order: rel icon
32x32, rel icon 16x16, and a shortcut icon mirroring the 32x32 data URL;
hence the primary attempt and the two delayed retries each re-assert
exactly 3 icon links and never accumulate duplicates. -/
theorem favicon_three_links (f32 f16 : String) (head : List LinkEl) :
    ((updateFaviconInBrowser f32 f16 head).filter matchesIconSelector =
      [⟨"icon", f32, some "32x32"⟩, ⟨"icon", f16, some "16x16"⟩,
       ⟨"shortcut icon", f32, none⟩]) ∧
    ((updateFaviconInBrowser f32 f16 head).filter matchesIconSelector).length = 3 ∧
    ((updateFaviconInBrowser f32 f16
        (updateFaviconInBrowser f32 f16 head)).filter
      matchesIconSelector).length = 3 ∧
    ((updateFaviconInBrowser f32 f16 (updateFaviconInBrowser f32 f16
        (updateFaviconInBrowser f32 f16 head))).filter
      matchesIconSelector).length = 3 := by
  have h1 : matchesIconSelector ⟨"icon", f32, some "32x32"⟩ = true := rfl
  have h2 : matchesIconSelector ⟨"icon", f16, some "16x16"⟩ = true := rfl
  have h3 : matchesIconSelector ⟨"shortcut icon", f32, none⟩ = true := rfl
  have key : ∀ hd : List LinkEl,
      (updateFaviconInBrowser f32 f16 hd).filter matchesIconSelector =
        [⟨"icon", f32, some "32x32"⟩, ⟨"icon", f16, some "16x16"⟩,
         ⟨"shortcut icon", f32, none⟩] := by
    intro hd
    unfold updateFaviconInBrowser
    rw [List.filter_append, filter_not_self]
    simp [List.filter_cons, h1, h2, h3]
  exact ⟨key head, by rw [key head]; rfl, by rw [key _]; rfl, by rw [key _]; rfl⟩

theorem reachable_inv {t : Nat} {s : TimerState} (h : Reachable t s) :
    s.timeRemaining ≤ totalTime ∧
      ∀ e, s.timerEnd = some e → e ≤ t + s.timeRemaining * 1000 := by
  induction h with
  | init t =>
    exact ⟨Nat.le_refl _, fun e he => by simp [initialState] at he⟩
  | @start t s t' hr hle ih =>
    rw [startTimer_eq]
    dsimp only
    refine ⟨ih.1, fun e he => ?_⟩
    simp only [Option.some.injEq] at he
    omega
  | @pause t s t' hr hle ih =>
    refine ⟨ih.1, fun e he => ?_⟩
    have hb := ih.2 e he
    have h1 := ih.1
    simp only [pauseTimer] at *
    omega
  | @reset t s t' hr hle ih =>
    exact ⟨Nat.le_refl _, fun e he => by simp [resetTimer] at he⟩
  | @tick t s t' hr hle ih =>
    rcases hse : s.timerEnd with _ | e0
    · rw [updateTimer_eq, hse]
      simp only [Option.getD_none]
      rw [if_pos (by omega)]
      exact ⟨Nat.zero_le _, fun e he => by simp at he⟩
    · have hb := ih.2 e0 hse
      have h1 := ih.1
      rw [updateTimer_eq, hse]
      simp only [Option.getD_some]
      by_cases h0 : (e0 - t' + 999) / 1000 = 0
      · rw [if_pos h0]
        exact ⟨Nat.zero_le _, fun e he => by simp at he⟩
      · rw [if_neg h0]
        dsimp only
        refine ⟨by omega, fun e he => ?_⟩
        simp only [Option.some.injEq] at he
        omega

/-- C10: assuming the wall clock never moves backward, every state reachable
from the mount state by any sequence of start, pause, reset and tick keeps
remainingSeconds between 0 and totalSeconds = 1500: the tick recomputation
ceil((Deadline - now)/1000) can never exceed the remaining seconds from
which the current deadline was computed. -/
theorem remaining_bounded (t : Nat) (s : TimerState) (h : Reachable t s) :
    s.timeRemaining ≤ totalTime :=
  (reachable_inv h).1

/-- C10 witness: the bound evaluated on the pristine timer started at t = 0
and ticked at t = 5000. -/
theorem remaining_bounded_witness :
    (updateTimer 5000 (startTimer 0 initialState)).timeRemaining ≤ totalTime :=
  remaining_bounded 5000 _
    (Reachable.tick 5000
      (Reachable.start 0 (Reachable.init 0) (Nat.le_refl 0))
      (Nat.zero_le 5000))

/-- C4: evaluation of getProgressClipPath at the quadrant thresholds over
the reals.  At progress 3/8 the tangent branch for the right edge yields
the vertex (100, 0), not the corner (100, 100) that the corner-pinned
branch uses for every progress above 3/8, so the polygon jumps when
progress crosses 0.375; at progress 5/8 the vertex list ends in two center
vertices while the corner-pinned side continues with a left-edge vertex, so
the two sides differ there as well.  At progress 1/2 the bottom-edge
quadrant boundary (50, 100) is produced via the tangent rule, as claimed. -/
theorem clip_threshold_eval :
    getProgressClipPath Real.tan Real.pi (3/8) =
      [(50, 50), (50, 0), (100, 0), (100, 0), (50, 50), (50, 50), (50, 50)] ∧
    getProgressClipPath Real.tan Real.pi (5/8) =
      [(50, 50), (50, 0), (100, 0), (100, 100), (0, 100), (50, 50), (50, 50)] ∧
    getProgressClipPath Real.tan Real.pi (1/2) =
      [(50, 50), (50, 0), (100, 0), (100, 100), (50, 100), (50, 50), (50, 50)] := by
  have h38 : Real.tan (((3:ℝ)/8 - 1/4) * 2 * Real.pi) = 1 := by
    rw [show ((3:ℝ)/8 - 1/4) * 2 * Real.pi = Real.pi / 4 by ring]
    exact Real.tan_pi_div_four
  have h58 : Real.tan (((5:ℝ)/8 - 1/2) * 2 * Real.pi) = 1 := by
    rw [show ((5:ℝ)/8 - 1/2) * 2 * Real.pi = Real.pi / 4 by ring]
    exact Real.tan_pi_div_four
  have h12 : Real.tan (((1:ℝ)/2 - 1/2) * 2 * Real.pi) = 0 := by
    rw [show ((1:ℝ)/2 - 1/2) * 2 * Real.pi = 0 by ring]
    exact Real.tan_zero
  refine ⟨?_, ?_, ?_⟩
  · unfold getProgressClipPath
    rw [h38]
    norm_num
  · unfold getProgressClipPath
    rw [h58]
    norm_num
  · unfold getProgressClipPath
    rw [h12]
    norm_num

/-- C5: at progress 0 every produced vertex is either the 12 o'clock start
point (50, 0) or the center (50, 50) and the polygon has zero area (its
shoelace sum vanishes); at progress 1 all four corners are pinned and the
sweep returns to the top, giving the full bounding square (shoelace sum
20000, twice the area 10000), which covers the whole inscribed circle. -/
theorem clip_endpoints :
    getProgressClipPath Real.tan Real.pi 0 =
      [(50, 50), (50, 0), (50, 0), (50, 50), (50, 50), (50, 50), (50, 50)] ∧
    shoelaceSum (getProgressClipPath Real.tan Real.pi 0) = 0 ∧
    getProgressClipPath Real.tan Real.pi 1 =
      [(50, 50), (50, 0), (100, 0), (100, 100), (0, 100), (0, 0), (50, 0)] ∧
    shoelaceSum (getProgressClipPath Real.tan Real.pi 1) = 20000 := by
  have h0 : Real.tan ((0:ℝ) * 2 * Real.pi) = 0 := by
    rw [show (0:ℝ) * 2 * Real.pi = 0 by ring]
    exact Real.tan_zero
  have h1 : Real.tan (((1:ℝ) - 1) * 2 * Real.pi) = 0 := by
    rw [show ((1:ℝ) - 1) * 2 * Real.pi = 0 by ring]
    exact Real.tan_zero
  have e0 : getProgressClipPath Real.tan Real.pi 0 =
      [(50, 50), (50, 0), (50, 0), (50, 50), (50, 50), (50, 50), (50, 50)] := by
    unfold getProgressClipPath
    rw [h0]
    norm_num
  have e1 : getProgressClipPath Real.tan Real.pi 1 =
      [(50, 50), (50, 0), (100, 0), (100, 100), (0, 100), (0, 0), (50, 0)] := by
    unfold getProgressClipPath
    rw [h1]
    norm_num
  refine ⟨e0, ?_, e1, ?_⟩
  · rw [e0]
    norm_num [shoelaceSum, shoelaceTerms]
  · rw [e1]
    norm_num [shoelaceSum, shoelaceTerms]

end VisualTabTimer

